import Mathlib

/-!
Verification development for the Dreamwell influencer-agent repository.

The deterministic pricing and analytics engine lives in mcp_server.py and the
agent orchestration loop in backend_main.py.  Both are embedded below as
executable Lean definitions over exact rationals (Python floats are modelled
as rationals, with the float-level rounding primitives made explicit), and the
orchestration loop as a pure state-passing recursion parameterised over an
abstract completion provider and tool executor.
-/

namespace Dreamwell

/-! ## Python-level numeric primitives -/

/-- Python round-half-to-even applied to a rational, returning an integer.
Models the tie behaviour of the builtin round. -/
def pyRoundInt (q : ℚ) : ℤ :=
  let f : ℤ := ⌊q⌋
  let r : ℚ := q - f
  if r < 1/2 then f
  else if 1/2 < r then f + 1
  else if 2 ∣ f then f else f + 1

/-- Python round(x, 2): round to 2 decimal places, ties to even. -/
def round2 (q : ℚ) : ℚ := (pyRoundInt (q * 100) : ℚ) / 100

/-- Python round(x, 1): round to 1 decimal place, ties to even. -/
def round1 (q : ℚ) : ℚ := (pyRoundInt (q * 10) : ℚ) / 10

/-- Python int(x): truncation toward zero. -/
def pyInt (q : ℚ) : ℤ := if 0 ≤ q then ⌊q⌋ else ⌈q⌉

/-- Python reads numeric-or-missing dict entries with `d.get(k) or fallback`:
a missing key or a zero value both fall through to the fallback. -/
def pyOr (a : Option ℚ) (b : ℚ) : ℚ :=
  match a with
  | some x => if x = 0 then b else x
  | none => b

/-- Python `d.get(k) or fallback` for string entries: a missing key or an
empty string both fall through to the fallback. -/
def pyOrS (a : Option String) (b : String) : String :=
  match a with
  | some s => if s = "" then b else s
  | none => b

/-- ASCII lowering, modelling the Python str.lower calls on ASCII data. -/
def lowerStr (s : String) : String := String.mk (s.toList.map Char.toLower)

/-- Substring test on character lists (Python `needle in haystack`). -/
def listContainsSub (haystack pat : List Char) : Bool :=
  match haystack with
  | [] => pat.isEmpty
  | c :: cs => pat.isPrefixOf (c :: cs) || listContainsSub cs pat

/-- Python substring containment `pat in s`. -/
def strContains (s pat : String) : Bool := listContainsSub s.toList pat.toList

/-! ## Channel data records (mcp_server.py)

The JSON channel payload returned by fetch_channel_data carries different
field names depending on provenance (live API vs local fallback); the pricing
and analytics tools read both spellings with `get` fallbacks.  Optional fields
model presence/absence of the JSON keys. -/

structure ChannelData where
  subscriber_count : Option ℚ := none
  subscribers : Option ℚ := none
  avg_views : Option ℚ := none
  avg_views_per_video : Option ℚ := none
  engagement_rate : Option ℚ := none
  consistency_score : Option String := none
  consistency : Option String := none
  title : Option String := none
  channel_name : Option String := none
  description : Option String := none
  category : Option String := none
  total_views : Option ℚ := none
  view_count : Option ℚ := none
  video_count : Option ℚ := none
  recent_video_performance : Option (List ℚ) := none
deriving DecidableEq

/-! ## Pricing engine (mcp_server.py lines 466-562) -/

/-- get_base_cpm: base CPM by subscriber tier. -/
def get_base_cpm (subscribers : ℚ) : ℚ :=
  if subscribers < 10000 then 12.50
  else if subscribers < 100000 then 20.00
  else if subscribers < 1000000 then 32.50
  else 70.00

/-- get_engagement_multiplier: multiplier based on engagement rate. -/
def get_engagement_multiplier (rate : ℚ) : ℚ :=
  if rate < 0.05 then 0.7
  else if rate < 0.15 then 1.0
  else if rate < 0.30 then 1.3
  else 1.5

/-- get_niche_multiplier: multiplier based on content niche keywords. -/
def get_niche_multiplier (channel_title description : String) : ℚ :=
  let content := lowerStr (channel_title ++ " " ++ description)
  if strContains content ("tech") || strContains content ("ai") then 1.2
  else if strContains content ("finance") || strContains content ("money") then 1.4
  else if strContains content ("game") || strContains content ("gaming") then 0.9
  else 1.0

/-- get_consistency_multiplier: multiplier based on upload consistency. -/
def get_consistency_multiplier (score : String) : ℚ :=
  if score = "high" then 1.1
  else if score = "medium" then 1.0
  else if score = "low" then 0.9
  else 1.0

/-- Metric extraction in calculate_offer_price, line 513:
subs = data.get(subscriber_count) or data.get(subscribers, 0). -/
def offerSubs (data : ChannelData) : ℚ :=
  pyOr data.subscriber_count (data.subscribers.getD 0)

/-- Metric extraction in calculate_offer_price, line 514:
avg_views = data.get(avg_views) or data.get(avg_views_per_video, subs * 0.1). -/
def offerAvgViews (data : ChannelData) : ℚ :=
  pyOr data.avg_views (data.avg_views_per_video.getD (offerSubs data * 0.1))

/-- Metric extraction in calculate_offer_price, line 515. -/
def offerEngRate (data : ChannelData) : ℚ :=
  data.engagement_rate.getD 0.05

/-- Metric extraction in calculate_offer_price, line 516. -/
def offerConsistency (data : ChannelData) : String :=
  pyOrS data.consistency_score (data.consistency.getD ("medium"))

/-- Title argument of get_niche_multiplier in calculate_offer_price, line 522. -/
def offerTitle (data : ChannelData) : String :=
  pyOrS data.title (data.channel_name.getD (""))

/-- Description argument of get_niche_multiplier in calculate_offer_price, line 523. -/
def offerDescription (data : ChannelData) : String :=
  data.description.getD ("") ++ " " ++ data.category.getD ("")

/-- The un-rounded CPM product computed at line 527 of calculate_offer_price. -/
def cpmProduct (data : ChannelData) : ℚ :=
  get_base_cpm (offerSubs data)
    * get_engagement_multiplier (offerEngRate data)
    * get_niche_multiplier (offerTitle data) (offerDescription data)
    * get_consistency_multiplier (offerConsistency data)

/-- Result payload of calculate_offer_price (success case). -/
structure OfferCalc where
  subs : ℚ
  avg_views : ℚ
  eng_rate : ℚ
  consistency : String
  base_cpm : ℚ
  eng_mult : ℚ
  niche_mult : ℚ
  cons_mult : ℚ
  final_cpm : ℚ
  estimated_total_price : ℚ
  offer_price : ℚ
  negotiation_cap : ℚ
deriving DecidableEq

/-- calculate_offer_price (mcp_server.py lines 495-562), on resolved channel
data.  The estimated price is computed from the UN-rounded CPM product
(line 531) and only afterwards are final_cpm and estimated_price rounded to
two decimals (lines 534-535); negotiation_cap is the rounded estimate
times 1.2 (line 560). -/
def calculate_offer_price (data : ChannelData) : OfferCalc :=
  let final_cpm_raw := cpmProduct data
  let estimated_raw := (offerAvgViews data / 1000) * final_cpm_raw
  let final_cpm := round2 final_cpm_raw
  let estimated_price := round2 estimated_raw
  { subs := offerSubs data
    avg_views := offerAvgViews data
    eng_rate := offerEngRate data
    consistency := offerConsistency data
    base_cpm := get_base_cpm (offerSubs data)
    eng_mult := get_engagement_multiplier (offerEngRate data)
    niche_mult := get_niche_multiplier (offerTitle data) (offerDescription data)
    cons_mult := get_consistency_multiplier (offerConsistency data)
    final_cpm := final_cpm
    estimated_total_price := estimated_price
    offer_price := estimated_price
    negotiation_cap := estimated_price * 1.2 }

/-! ## Negotiation validator (mcp_server.py lines 564-604) -/

/-- Fair price determination in validate_counter_offer: the fair value is
recomputed via calculate_offer_price; if channel resolution failed the
original offer price is used as fallback (line 576). -/
def fairPrice (channelData : Option ChannelData) (original_price : ℚ) : ℚ :=
  match channelData with
  | none => original_price
  | some d => (calculate_offer_price d).estimated_total_price

/-- Analysis payload of validate_counter_offer. -/
structure CounterAnalysis where
  success : Bool
  fair_market_value : ℚ
  counter_offer : ℚ
  difference_percentage : ℚ
  recommendation : String
deriving DecidableEq

/-- validate_counter_offer (mcp_server.py lines 564-604), given the outcome of
channel resolution.  Returns none exactly when the Python code raises
ZeroDivisionError: the division at line 580 is performed unconditionally, so a
fair value of 0 aborts the call instead of producing a structured result. -/
def validate_counter_offer (channelData : Option ChannelData)
    (original_price counter_price : ℚ) : Option CounterAnalysis :=
  let fair_price := fairPrice channelData original_price
  if fair_price = 0 then none
  else
    let diff_percent := ((counter_price - fair_price) / fair_price) * 100
    some { success := true
           fair_market_value := fair_price
           counter_offer := counter_price
           difference_percentage := round1 diff_percent
           recommendation :=
             if diff_percent ≤ 10 then "accept"
             else if diff_percent ≤ 25 then "negotiate"
             else "decline" }

/-! ## ROI forecaster (mcp_server.py lines 609-717) -/

/-- Metric extraction in forecast_campaign_roi, line 631. -/
def roiAvgViews (data : ChannelData) : ℚ :=
  pyOr data.avg_views (data.avg_views_per_video.getD 10000)

/-- Metric extraction in forecast_campaign_roi, line 632. -/
def roiEngRate (data : ChannelData) : ℚ :=
  data.engagement_rate.getD 0.05

/-- Metric extraction in forecast_campaign_roi, line 633. -/
def roiCategory (data : ChannelData) : String :=
  data.category.getD ("general")

/-- conversion_rates.get(category, 0.018): niche baseline click-through rate
(mcp_server.py lines 636-643, 655). -/
def baseCtr (category : String) : ℚ :=
  if category = "tech" then 0.025
  else if category = "finance" then 0.03
  else if category = "business" then 0.022
  else if category = "lifestyle" then 0.015
  else if category = "gaming" then 0.01
  else if category = "general" then 0.018
  else 0.018

/-- aov_by_niche.get(category, 60): niche average order value, a Python int
(mcp_server.py lines 646-653, 656). -/
def nicheAov (category : String) : ℤ :=
  if category = "tech" then 85
  else if category = "finance" then 120
  else if category = "business" then 150
  else if category = "lifestyle" then 45
  else if category = "gaming" then 35
  else if category = "general" then 60
  else 60

/-- Engagement boost, line 659: 1 + (eng_rate - 0.05) * 5. -/
def engagementBoost (data : ChannelData) : ℚ :=
  1 + (roiEngRate data - 0.05) * 5

/-- Adjusted click-through rate, line 660:
base_ctr * max(0.5, min(2.0, engagement_boost)). -/
def adjustedCtr (data : ChannelData) : ℚ :=
  baseCtr (roiCategory data) * max 0.5 (min 2.0 (engagementBoost data))

/-- Forecast payload of forecast_campaign_roi. -/
structure RoiForecast where
  estimated_views : ℚ
  estimated_clicks : ℤ
  estimated_conversions : ℤ
  estimated_revenue : ℚ
  roas : ℚ
  recommendation : String
deriving DecidableEq

/-- forecast_campaign_roi (mcp_server.py lines 609-717) on resolved channel
data: clicks and conversions use Python int() truncation, revenue is
conversions times the niche average order value, and ROAS is
round(revenue / offer_price, 2) guarded by offer_price > 0 (line 674). -/
def forecast_campaign_roi (data : ChannelData) (offer_price : ℚ) : RoiForecast :=
  let estimated_views := roiAvgViews data
  let aov := nicheAov (roiCategory data)
  let estimated_clicks := pyInt (estimated_views * adjustedCtr data)
  let estimated_conversions := pyInt ((estimated_clicks : ℚ) * 0.03)
  let estimated_revenue : ℤ := estimated_conversions * aov
  let roas := if 0 < offer_price then round2 ((estimated_revenue : ℚ) / offer_price) else 0
  { estimated_views := estimated_views
    estimated_clicks := estimated_clicks
    estimated_conversions := estimated_conversions
    estimated_revenue := round2 ((estimated_revenue : ℚ))
    roas := roas
    recommendation :=
      if 3 ≤ roas then "strongly_recommend"
      else if 2 ≤ roas then "recommend"
      else if 1 ≤ roas then "proceed_with_caution"
      else "reconsider" }

/-! ## Authenticity scorer (mcp_server.py lines 720-857) -/

/-- Metric extraction in detect_fake_engagement, lines 741-746. -/
def fakeSubs (data : ChannelData) : ℚ :=
  pyOr data.subscriber_count (data.subscribers.getD 0)

/-- Metric extraction in detect_fake_engagement, line 742. -/
def fakeAvgViews (data : ChannelData) : ℚ :=
  pyOr data.avg_views (data.avg_views_per_video.getD 0)

/-- Metric extraction in detect_fake_engagement, line 743. -/
def fakeEngRate (data : ChannelData) : ℚ :=
  data.engagement_rate.getD 0

/-- Metric extraction in detect_fake_engagement, line 744. -/
def fakeTotalViews (data : ChannelData) : ℚ :=
  pyOr data.total_views (data.view_count.getD 0)

/-- Metric extraction in detect_fake_engagement, line 745. -/
def fakeVideoCount (data : ChannelData) : ℚ :=
  data.video_count.getD 1

/-- Check 1 (lines 751-768): view-to-subscriber ratio penalty. -/
def penaltyViewRatio (data : ChannelData) : ℤ :=
  let ratio := if 0 < fakeSubs data then fakeAvgViews data / fakeSubs data * 100 else 0
  if ratio < 2 then 25 else if ratio < 5 then 10 else 0

/-- Check 2 (lines 770-785): engagement-rate anomaly penalty. -/
def penaltyEngagement (data : ChannelData) : ℤ :=
  if 0.50 < fakeEngRate data then 15
  else if fakeEngRate data < 0.01 ∧ 10000 < fakeSubs data then 20
  else 0

/-- Check 3 (lines 787-800): performance-consistency penalty.  The source
compares stddev/mean with 0.5; for a positive mean this holds exactly when
the population variance exceeds mean^2/4, which is the rational-arithmetic
form used here (the square root itself is irrational in general). -/
def penaltyConsistency (data : ChannelData) : ℤ :=
  let recent := data.recent_video_performance.getD []
  if 3 ≤ recent.length then
    let avg := recent.sum / (recent.length : ℚ)
    let variance := (recent.map (fun x => (x - avg) ^ 2)).sum / (recent.length : ℚ)
    if 0 < avg ∧ avg ^ 2 / 4 < variance then 5 else 0
  else 0

/-- Check 4 (lines 802-811): subscriber-to-video ratio penalty. -/
def penaltySubsPerVideo (data : ChannelData) : ℤ :=
  let spv := if 0 < fakeVideoCount data then fakeSubs data / fakeVideoCount data else 0
  if 50000 < spv ∧ fakeVideoCount data < 20 then 10 else 0

/-- Check 5 (lines 813-821): total-view sanity penalty. -/
def penaltyTotalViews (data : ChannelData) : ℤ :=
  let expected := fakeAvgViews data * fakeVideoCount data * 0.8
  if 0 < fakeTotalViews data ∧ fakeTotalViews data < expected * 0.3 then 15 else 0

/-- detect_fake_engagement authenticity score (lines 749-824): start at 100,
subtract the five check penalties, clamp to [0, 100]. -/
def authenticity_score (data : ChannelData) : ℤ :=
  max 0 (min 100 (100 - penaltyViewRatio data - penaltyEngagement data
    - penaltyConsistency data - penaltySubsPerVideo data - penaltyTotalViews data))

/-! ## Agent orchestrator (backend_main.py lines 139-288)

The ReAct loop is embedded as a pure recursion parameterised over an abstract
completion provider (the OpenAI chat call at line 194) and an abstract tool
executor (argument parsing plus session.call_tool plus output extraction at
lines 212-255; an Except.error models any exception raised inside the
per-tool-call try block).  The message history distinguishes the assistant
messages (OpenAI response objects, which expose a content attribute) from the
system/user/tool messages (plain dicts, which do not): reading messages[-1]
as an attribute access is exactly what lines 275 and 284 do. -/

/-- One requested tool call (id, function name, raw JSON argument string). -/
structure ToolCall where
  id : String
  fname : String
  arguments : String
deriving DecidableEq

/-- An assistant completion: optional text content plus requested tool calls
(an absent tool_calls attribute is modelled by the empty list, matching the
falsy test at line 205). -/
structure AssistantMsg where
  content : Option String
  tool_calls : List ToolCall
deriving DecidableEq

/-- A message in the history.  system/user/tool messages are Python dicts;
assistant messages are OpenAI objects. -/
inductive Msg where
  | system (content : String)
  | user (content : String)
  | assistant (content : Option String) (tool_calls : List ToolCall)
  | tool (tool_call_id : String) (content : String)
deriving DecidableEq

/-- A completion provider: full message history in, assistant message out.
Models one successful openai chat.completions.create call. -/
def Provider := List Msg → AssistantMsg

/-- A tool executor: models json.loads on the arguments plus
session.call_tool plus result extraction; Except.error e models an exception
whose str() is e. -/
def ToolExec := ToolCall → Except String String

/-- The tool message appended for one requested call (lines 259-263 on
success, lines 267-271 when the try block raised). -/
def execMsg (toolExec : ToolExec) (tc : ToolCall) : Msg :=
  Msg.tool tc.id
    (match toolExec tc with
     | Except.ok out => out
     | Except.error e => "Error: " ++ e)

/-- The for-loop of agent_orchestrator (lines 190-271): returns the final
message history together with the number of iterations entered (the Python
value i + 1 after the loop).  Each round appends the assistant message; if it
requested no tool calls the loop breaks, otherwise every requested call is
dispatched in order and its tool message appended before the next round. -/
def orchLoop (provider : Provider) (toolExec : ToolExec) :
    Nat → List Msg → List Msg × Nat
  | 0, messages => (messages, 0)
  | fuel + 1, messages =>
    let a := provider messages
    let messages1 := messages ++ [Msg.assistant a.content a.tool_calls]
    if a.tool_calls.isEmpty then (messages1, 1)
    else
      let messages2 := messages1 ++ a.tool_calls.map (execMsg toolExec)
      let r := orchLoop provider toolExec fuel messages2
      (r.1, r.2 + 1)

/-- MAX_ITERATIONS (backend_main.py line 185). -/
def MAX_ITERATIONS : Nat := 5

/-- The system prompt of agent_orchestrator (lines 153-177; the full prose is
abbreviated — no claim depends on its text, only on its position in the
history). -/
def system_prompt (brand_id : String) : String :=
  "You are an expert influencer marketing manager for " ++ brand_id
    ++ ". Output ONLY the email itself."

/-- Initial message history (lines 180-183). -/
def initial_messages (email_context brand_id : String) : List Msg :=
  [Msg.system (system_prompt brand_id),
   Msg.user ("Email Context: " ++ email_context)]

/-- Category derivation from the last content (lines 274-280), including the
Python truthiness test on line 276. -/
def derive_category (last_content : Option String) : String :=
  match last_content with
  | none => "response"
  | some s =>
    if s = "" then "response"
    else
      let lower := lowerStr s
      if strContains lower ("negotiat") then "negotiation"
      else if strContains lower ("accept") then "acceptance"
      else if strContains lower ("decline") then "rejection"
      else "response"

/-- Result dict of agent_orchestrator (lines 282-288). -/
structure OrchResult where
  category : String
  response_draft : Option String
  iterations_used : Nat
deriving DecidableEq

/-- agent_orchestrator (backend_main.py lines 139-288).  After the loop, the
code reads messages[-1].content (line 275): when the last history entry is an
assistant object this succeeds, but when the loop exhausted its five rounds
the last entry is a tool-role dict and the attribute access raises
AttributeError, modelled as Except.error. -/
def agent_orchestrator (provider : Provider) (toolExec : ToolExec)
    (email_context brand_id : String) : Except String OrchResult :=
  let r := orchLoop provider toolExec MAX_ITERATIONS
    (initial_messages email_context brand_id)
  match r.1.getLast? with
  | some (Msg.assistant c _) =>
    Except.ok { category := derive_category c
                response_draft := c
                iterations_used := r.2 }
  | _ => Except.error ("AttributeError")

/-! ## Concrete inputs used by counterexamples and witnesses -/

/-- A resolved channel: 5000 subscribers, 100000 average views, engagement
0.20, low consistency, gaming niche.  Its CPM product is
12.50 x 1.3 x 0.9 x 0.9 = 13.1625, which does not round cleanly. -/
def gamingChannel : ChannelData :=
  { subscriber_count := some 5000, avg_views := some 100000,
    engagement_rate := some (1/5), consistency_score := some ("low"),
    title := some ("gaming") }

/-- The worked spec example: 50000 subscribers, engagement 0.10, medium
consistency, default niche, and a recorded avg_views of exactly 0 with no
avg_views_per_video field. -/
def specExampleChannel : ChannelData :=
  { subscriber_count := some 50000, avg_views := some 0,
    engagement_rate := some (1/10), consistency_score := some ("medium") }

/-- A general-niche channel with 10000 average views and baseline
engagement 0.05, used for the ROI forecaster. -/
def generalChannel : ChannelData :=
  { avg_views := some 10000, engagement_rate := some (1/20) }

/-- A stub tool call. -/
def stubCall : ToolCall :=
  { id := "call_1", fname := "fetch_channel_data", arguments := "" }

/-- A stub completion provider that requests one tool call in every
response. -/
def stubProvider : Provider :=
  fun _ => { content := some ("thinking"), tool_calls := [stubCall] }

/-- A stub tool executor that always succeeds. -/
def stubToolExec : ToolExec := fun _ => Except.ok ("ok")

/-- Tool call whose execution will fail. -/
def failingCall : ToolCall :=
  { id := "a", fname := "calculate_offer_price", arguments := "bad json" }

/-- Tool call after the failing one in the same round. -/
def laterCall : ToolCall :=
  { id := "b", fname := "get_brand_context", arguments := "" }

/-- Provider requesting the failing call followed by another call. -/
def twoCallProvider : Provider :=
  fun _ => { content := some ("working"), tool_calls := [failingCall, laterCall] }

/-- Tool executor that raises on the failing call and succeeds otherwise. -/
def failingToolExec : ToolExec :=
  fun tc => if tc.id = "a" then Except.error ("boom") else Except.ok ("fine")

/-- The message history with which the next reasoning round starts after a
round that requested tool calls: prior history, then the assistant message,
then one tool message per requested call (backend_main.py lines 202-271). -/
def roundHistory (p : Provider) (t : ToolExec) (msgs : List Msg) : List Msg :=
  msgs ++ [Msg.assistant (p msgs).content (p msgs).tool_calls]
    ++ (p msgs).tool_calls.map (execMsg t)

/-! ## Helper lemmas -/

lemma pyInt_eq_floor {q : ℚ} (h : 0 ≤ q) : pyInt q = ⌊q⌋ := if_pos h

lemma pyRoundInt_intCast (n : ℤ) : pyRoundInt ((n : ℚ)) = n := by
  unfold pyRoundInt
  norm_num

lemma round2_intCast (n : ℤ) : round2 ((n : ℚ)) = n := by
  unfold round2
  rw [show ((n : ℚ) * 100) = (((n * 100 : ℤ) : ℚ)) by push_cast; ring,
    pyRoundInt_intCast]
  push_cast
  ring

lemma baseCtr_nonneg (c : String) : 0 ≤ baseCtr c := by
  unfold baseCtr
  split_ifs <;> norm_num

lemma adjustedCtr_nonneg (d : ChannelData) : 0 ≤ adjustedCtr d := by
  unfold adjustedCtr
  exact mul_nonneg (baseCtr_nonneg _) (le_trans (by norm_num) (le_max_left 0.5 _))

lemma gamingChannel_niche :
    get_niche_multiplier (offerTitle gamingChannel) (offerDescription gamingChannel) = 0.9 := by
  have h1 : (strContains (lowerStr (offerTitle gamingChannel ++ " " ++ offerDescription gamingChannel)) ("tech")
      || strContains (lowerStr (offerTitle gamingChannel ++ " " ++ offerDescription gamingChannel)) ("ai")) = false := by
    decide
  have h2 : (strContains (lowerStr (offerTitle gamingChannel ++ " " ++ offerDescription gamingChannel)) ("finance")
      || strContains (lowerStr (offerTitle gamingChannel ++ " " ++ offerDescription gamingChannel)) ("money")) = false := by
    decide
  have h3 : (strContains (lowerStr (offerTitle gamingChannel ++ " " ++ offerDescription gamingChannel)) ("game")
      || strContains (lowerStr (offerTitle gamingChannel ++ " " ++ offerDescription gamingChannel)) ("gaming")) = true := by
    decide
  simp only [get_niche_multiplier, h1, h2, h3, Bool.false_eq_true, if_false, if_true]

lemma gamingChannel_cpmProduct : cpmProduct gamingChannel = 1053/80 := by
  rw [cpmProduct, gamingChannel_niche]
  simp [offerSubs, offerEngRate, offerConsistency, pyOr, pyOrS, gamingChannel,
    get_base_cpm, get_engagement_multiplier, get_consistency_multiplier]
  norm_num

lemma gamingChannel_avg_views : offerAvgViews gamingChannel = 100000 := by
  simp [offerAvgViews, pyOr, gamingChannel]

lemma orchLoop_iterations_le (p : Provider) (t : ToolExec) :
    ∀ (fuel : Nat) (msgs : List Msg), (orchLoop p t fuel msgs).2 ≤ fuel := by
  intro fuel
  induction fuel with
  | zero => intro msgs; exact Nat.le_refl 0
  | succ n ih =>
    intro msgs
    unfold orchLoop
    by_cases h : (p msgs).tool_calls.isEmpty
    · simp only [h, if_true]
      omega
    · simp only [h, Bool.false_eq_true, if_false]
      exact Nat.succ_le_succ (ih _)

/-! ## Claim theorems -/

/-- Claim C9: get_base_cpm is a non-decreasing step function of the
subscriber count whose only breakpoints are at 10000, 100000 and 1000000,
taking the values 12.50, 20.00, 32.50 and 70.00 on the four tiers. -/
theorem get_base_cpm_step_function :
    (∀ a b : ℚ, a ≤ b → get_base_cpm a ≤ get_base_cpm b)
    ∧ (∀ s : ℚ, s < 10000 → get_base_cpm s = 12.50)
    ∧ (∀ s : ℚ, 10000 ≤ s → s < 100000 → get_base_cpm s = 20.00)
    ∧ (∀ s : ℚ, 100000 ≤ s → s < 1000000 → get_base_cpm s = 32.50)
    ∧ (∀ s : ℚ, 1000000 ≤ s → get_base_cpm s = 70.00) := by
  refine ⟨?_, ?_, ?_, ?_, ?_⟩ <;> intros <;> unfold get_base_cpm <;>
    split_ifs <;> first | rfl | linarith

/-- Witness for C9 at concrete subscriber counts in each tier. -/
theorem get_base_cpm_step_function_witness :
    ((5000 : ℚ) ≤ 2000000 ∧ get_base_cpm 5000 ≤ get_base_cpm 2000000)
    ∧ get_base_cpm 5000 = 12.50
    ∧ get_base_cpm 50000 = 20.00
    ∧ get_base_cpm 500000 = 32.50
    ∧ get_base_cpm 2000000 = 70.00 :=
  ⟨⟨by norm_num, get_base_cpm_step_function.1 5000 2000000 (by norm_num)⟩,
   get_base_cpm_step_function.2.1 5000 (by norm_num),
   get_base_cpm_step_function.2.2.1 50000 (by norm_num) (by norm_num),
   get_base_cpm_step_function.2.2.2.1 500000 (by norm_num) (by norm_num),
   get_base_cpm_step_function.2.2.2.2 2000000 (by norm_num)⟩

/-- Claim C1 counterexample: on the gaming channel the CPM product is
13.1625, so final_cpm rounds to 13.16 while the estimated price is computed
from the un-rounded product: the code returns 1316.25, whereas
(avg_views / 1000) times the rounded final_cpm, rounded, is 1316. -/
theorem calculate_offer_price_round_order_cex :
    ¬ ((calculate_offer_price gamingChannel).estimated_total_price
        = round2 ((offerAvgViews gamingChannel / 1000)
            * (calculate_offer_price gamingChannel).final_cpm)) := by
  have h1 : (calculate_offer_price gamingChannel).estimated_total_price = 5265/4 := by
    show round2 ((offerAvgViews gamingChannel / 1000) * cpmProduct gamingChannel) = 5265/4
    rw [gamingChannel_avg_views, gamingChannel_cpmProduct]
    norm_num [round2, pyRoundInt]
  have h2 : (calculate_offer_price gamingChannel).final_cpm = 329/25 := by
    show round2 (cpmProduct gamingChannel) = 329/25
    rw [gamingChannel_cpmProduct]
    norm_num [round2, pyRoundInt]
  rw [h1, h2, gamingChannel_avg_views]
  norm_num [round2, pyRoundInt]

/-- Claim C1 (amended): for every resolved channel metrics input,
calculate_offer_price returns final_cpm equal to the rounded CPM product,
estimated_price equal to (avg_views / 1000) times the UN-rounded CPM
product, itself rounded to 2 decimal places, and negotiation_cap equal to
estimated_price times 1.2. -/
theorem calculate_offer_price_formulas (d : ChannelData) :
    (calculate_offer_price d).final_cpm = round2 (cpmProduct d)
    ∧ (calculate_offer_price d).estimated_total_price
        = round2 ((offerAvgViews d / 1000) * cpmProduct d)
    ∧ (calculate_offer_price d).negotiation_cap
        = (calculate_offer_price d).estimated_total_price * 1.2 :=
  ⟨rfl, rfl, rfl⟩

/-- Claim C10: when avg_views is absent or 0 and avg_views_per_video is
absent, calculate_offer_price prices the channel as if its average views
were subscribers times 0.1. -/
theorem calculate_offer_price_views_fallback (d : ChannelData)
    (h1 : d.avg_views = none ∨ d.avg_views = some 0)
    (h2 : d.avg_views_per_video = none) :
    (calculate_offer_price d).avg_views = offerSubs d * 0.1
    ∧ (calculate_offer_price d).estimated_total_price
        = round2 ((offerSubs d * 0.1 / 1000) * cpmProduct d) := by
  have hav : offerAvgViews d = offerSubs d * 0.1 := by
    rcases h1 with h | h <;> simp [offerAvgViews, pyOr, h, h2]
  exact ⟨hav, by
    show round2 ((offerAvgViews d / 1000) * cpmProduct d) = _
    rw [hav]⟩

/-- Witness for C10 at the spec example channel (recorded avg_views exactly
0, 50000 subscribers): priced from 5000 effective views. -/
theorem calculate_offer_price_views_fallback_witness :
    ((specExampleChannel.avg_views = none ∨ specExampleChannel.avg_views = some 0)
      ∧ specExampleChannel.avg_views_per_video = none)
    ∧ (calculate_offer_price specExampleChannel).avg_views
        = offerSubs specExampleChannel * 0.1
    ∧ (calculate_offer_price specExampleChannel).estimated_total_price
        = round2 ((offerSubs specExampleChannel * 0.1 / 1000)
            * cpmProduct specExampleChannel) :=
  ⟨⟨Or.inr rfl, rfl⟩,
   calculate_offer_price_views_fallback specExampleChannel (Or.inr rfl) rfl⟩

/-- Claim C3: with a positive fair value F, validate_counter_offer
recommends accept exactly when the signed percentage difference is at most
10, negotiate when it is between 10 and 25, and decline beyond 25; in
particular counter = F x 1.05 yields accept, F x 1.20 yields negotiate and
F x 1.60 yields decline. -/
theorem validate_counter_offer_thresholds (cd : Option ChannelData)
    (original counter F : ℚ) (hF : fairPrice cd original = F) (hpos : 0 < F) :
    ((validate_counter_offer cd original counter).map CounterAnalysis.recommendation
        = some (if ((counter - F) / F) * 100 ≤ 10 then "accept"
                else if ((counter - F) / F) * 100 ≤ 25 then "negotiate"
                else "decline"))
    ∧ (validate_counter_offer cd original (F * 1.05)).map CounterAnalysis.recommendation
        = some ("accept")
    ∧ (validate_counter_offer cd original (F * 1.20)).map CounterAnalysis.recommendation
        = some ("negotiate")
    ∧ (validate_counter_offer cd original (F * 1.60)).map CounterAnalysis.recommendation
        = some ("decline") := by
  have hne : F ≠ 0 := ne_of_gt hpos
  have hgen : ∀ c : ℚ,
      (validate_counter_offer cd original c).map CounterAnalysis.recommendation
        = some (if ((c - F) / F) * 100 ≤ 10 then "accept"
                else if ((c - F) / F) * 100 ≤ 25 then "negotiate"
                else "decline") := by
    intro c
    simp only [validate_counter_offer, hF]
    rw [if_neg hne]
    rfl
  refine ⟨hgen counter, ?_, ?_, ?_⟩
  · rw [hgen]
    have h : ((F * 1.05 - F) / F) * 100 = 5 := by field_simp; ring
    rw [h]
    norm_num
  · rw [hgen]
    have h : ((F * 1.20 - F) / F) * 100 = 20 := by field_simp; ring
    rw [h]
    norm_num
  · rw [hgen]
    have h : ((F * 1.60 - F) / F) * 100 = 60 := by field_simp; ring
    rw [h]
    norm_num

/-- Witness for C3 with an unresolved channel and original price 200, so
the fair value is 200. -/
theorem validate_counter_offer_thresholds_witness :
    (fairPrice (none : Option ChannelData) 200 = 200 ∧ (0 : ℚ) < 200)
    ∧ (validate_counter_offer none 200 (200 * 1.05)).map CounterAnalysis.recommendation
        = some ("accept")
    ∧ (validate_counter_offer none 200 (200 * 1.20)).map CounterAnalysis.recommendation
        = some ("negotiate")
    ∧ (validate_counter_offer none 200 (200 * 1.60)).map CounterAnalysis.recommendation
        = some ("decline") :=
  ⟨⟨rfl, by norm_num⟩,
   (validate_counter_offer_thresholds none 200 0 200 rfl (by norm_num)).2.1,
   (validate_counter_offer_thresholds none 200 0 200 rfl (by norm_num)).2.2.1,
   (validate_counter_offer_thresholds none 200 0 200 rfl (by norm_num)).2.2.2⟩

/-- Claim C4 counterexample: with the channel unresolved and original price
0, the fallback fair value is 0 and the percentage computation divides by
zero, so the call raises ZeroDivisionError instead of returning a
structured result. -/
theorem validate_counter_offer_zero_division :
    validate_counter_offer none 0 5000 = none := rfl

/-- Claim C4 (amended): whenever the resulting fair value is nonzero,
validate_counter_offer returns a structured success result; when the
fair-price recomputation fails the original offer price is used as the
fair value. -/
theorem validate_counter_offer_structured (cd : Option ChannelData)
    (original counter : ℚ) (h : fairPrice cd original ≠ 0) :
    (validate_counter_offer cd original counter).isSome = true
    ∧ (validate_counter_offer cd original counter).map CounterAnalysis.success
        = some true
    ∧ (validate_counter_offer cd original counter).map CounterAnalysis.fair_market_value
        = some (fairPrice cd original)
    ∧ fairPrice none original = original := by
  simp only [validate_counter_offer]
  rw [if_neg h]
  exact ⟨rfl, rfl, rfl, rfl⟩

/-- Witness for C4 (amended) with an unresolved channel and original price
100. -/
theorem validate_counter_offer_structured_witness :
    (fairPrice (none : Option ChannelData) 100 ≠ 0)
    ∧ ((validate_counter_offer none 100 150).isSome = true
       ∧ (validate_counter_offer none 100 150).map CounterAnalysis.success = some true
       ∧ (validate_counter_offer none 100 150).map CounterAnalysis.fair_market_value
           = some (fairPrice none 100)
       ∧ fairPrice none 100 = 100) :=
  ⟨by norm_num [fairPrice],
   validate_counter_offer_structured none 100 150 (by norm_num [fairPrice])⟩

/-- Claim C7: the authenticity score starts at 100, accumulates the five
check penalties independently, is clamped to [0, 100], and therefore always
lies in [0, 100]. -/
theorem authenticity_score_bounds (d : ChannelData) :
    authenticity_score d
      = max 0 (min 100 (100 - penaltyViewRatio d - penaltyEngagement d
          - penaltyConsistency d - penaltySubsPerVideo d - penaltyTotalViews d))
    ∧ 0 ≤ authenticity_score d ∧ authenticity_score d ≤ 100 :=
  ⟨rfl, le_max_left 0 _, max_le (by norm_num) (min_le_left _ _)⟩

/-- Claim C8 counterexample: on the general channel with offer price 7 the
revenue is 300 but the returned ROAS is round(300 / 7, 2) = 42.86, not
300 / 7. -/
theorem forecast_campaign_roi_roas_rounded_cex :
    (forecast_campaign_roi generalChannel 7).estimated_revenue = 300
    ∧ ¬ ((forecast_campaign_roi generalChannel 7).roas
        = (forecast_campaign_roi generalChannel 7).estimated_revenue / 7) := by
  have hctr : adjustedCtr generalChannel = 9/500 := by
    simp [adjustedCtr, baseCtr, roiCategory, engagementBoost, roiEngRate,
      generalChannel, min_def, max_def]
    norm_num
  have hclicks : (forecast_campaign_roi generalChannel 7).estimated_clicks = 180 := by
    show pyInt (roiAvgViews generalChannel * adjustedCtr generalChannel) = 180
    rw [hctr]
    simp [roiAvgViews, pyOr, generalChannel]
    norm_num [pyInt]
  have hconv : (forecast_campaign_roi generalChannel 7).estimated_conversions = 5 := by
    show pyInt (((forecast_campaign_roi generalChannel 7).estimated_clicks : ℚ) * 0.03) = 5
    rw [hclicks]
    norm_num [pyInt]
  have haov : nicheAov (roiCategory generalChannel) = 60 := by
    simp [nicheAov, roiCategory, generalChannel]
  have hrev : (forecast_campaign_roi generalChannel 7).estimated_revenue = 300 := by
    show round2 ((((forecast_campaign_roi generalChannel 7).estimated_conversions
        * nicheAov (roiCategory generalChannel) : ℤ) : ℚ)) = 300
    rw [hconv, haov]
    norm_num [round2, pyRoundInt]
  refine ⟨hrev, ?_⟩
  have hroas : (forecast_campaign_roi generalChannel 7).roas = 2143/50 := by
    show (if (0:ℚ) < 7 then round2 ((((forecast_campaign_roi generalChannel 7).estimated_conversions
        * nicheAov (roiCategory generalChannel) : ℤ) : ℚ) / 7) else 0) = 2143/50
    rw [if_pos (by norm_num), hconv, haov]
    norm_num [round2, pyRoundInt]
  rw [hroas, hrev]
  norm_num

/-- Claim C8 (amended): forecast_campaign_roi computes adjusted_ctr as the
niche baseline CTR times the engagement boost clamped to [0.5, 2.0], clicks
as floor(avg_views x adjusted_ctr), conversions as floor(clicks x 0.03),
revenue as conversions times the niche average order value, and ROAS as
revenue / offer_price ROUNDED to 2 decimal places when offer_price > 0 and
0 when offer_price ≤ 0 (the division never occurs for non-positive
prices). -/
theorem forecast_campaign_roi_formulas (d : ChannelData) (offer_price : ℚ)
    (hv : 0 ≤ roiAvgViews d) :
    adjustedCtr d
      = baseCtr (roiCategory d) * max 0.5 (min 2.0 (1 + (roiEngRate d - 0.05) * 5))
    ∧ (forecast_campaign_roi d offer_price).estimated_clicks
        = ⌊roiAvgViews d * adjustedCtr d⌋
    ∧ (forecast_campaign_roi d offer_price).estimated_conversions
        = ⌊((forecast_campaign_roi d offer_price).estimated_clicks : ℚ) * 0.03⌋
    ∧ (forecast_campaign_roi d offer_price).estimated_revenue
        = ((forecast_campaign_roi d offer_price).estimated_conversions : ℚ)
            * ((nicheAov (roiCategory d) : ℤ) : ℚ)
    ∧ (0 < offer_price → (forecast_campaign_roi d offer_price).roas
        = round2 ((forecast_campaign_roi d offer_price).estimated_revenue / offer_price))
    ∧ (offer_price ≤ 0 → (forecast_campaign_roi d offer_price).roas = 0) := by
  have hctr := adjustedCtr_nonneg d
  have hclicks : (forecast_campaign_roi d offer_price).estimated_clicks
      = ⌊roiAvgViews d * adjustedCtr d⌋ := by
    show pyInt (roiAvgViews d * adjustedCtr d) = _
    exact pyInt_eq_floor (mul_nonneg hv hctr)
  have hclicks_nonneg : (0:ℚ) ≤ ((forecast_campaign_roi d offer_price).estimated_clicks : ℚ) := by
    rw [hclicks]
    exact_mod_cast Int.floor_nonneg.mpr (mul_nonneg hv hctr)
  have hconv : (forecast_campaign_roi d offer_price).estimated_conversions
      = ⌊((forecast_campaign_roi d offer_price).estimated_clicks : ℚ) * 0.03⌋ := by
    show pyInt (((forecast_campaign_roi d offer_price).estimated_clicks : ℚ) * 0.03) = _
    exact pyInt_eq_floor (mul_nonneg hclicks_nonneg (by norm_num))
  have hrev : (forecast_campaign_roi d offer_price).estimated_revenue
      = ((forecast_campaign_roi d offer_price).estimated_conversions : ℚ)
          * ((nicheAov (roiCategory d) : ℤ) : ℚ) := by
    show round2 ((((forecast_campaign_roi d offer_price).estimated_conversions
        * nicheAov (roiCategory d) : ℤ) : ℚ)) = _
    rw [round2_intCast]
    push_cast
    ring
  refine ⟨rfl, hclicks, hconv, hrev, ?_, ?_⟩
  · intro hp
    show (if 0 < offer_price then
        round2 ((((forecast_campaign_roi d offer_price).estimated_conversions
          * nicheAov (roiCategory d) : ℤ) : ℚ) / offer_price) else 0) = _
    rw [if_pos hp, hrev]
    push_cast
    ring_nf
  · intro hp
    show (if 0 < offer_price then
        round2 ((((forecast_campaign_roi d offer_price).estimated_conversions
          * nicheAov (roiCategory d) : ℤ) : ℚ) / offer_price) else 0) = 0
    rw [if_neg (not_lt.mpr hp)]

/-- Witness for C8 (amended) on the general channel at offer price 7. -/
theorem forecast_campaign_roi_formulas_witness :
    (0 : ℚ) ≤ roiAvgViews generalChannel
    ∧ (forecast_campaign_roi generalChannel 7).estimated_clicks
        = ⌊roiAvgViews generalChannel * adjustedCtr generalChannel⌋ :=
  ⟨by norm_num [roiAvgViews, pyOr, generalChannel],
   (forecast_campaign_roi_formulas generalChannel 7
      (by norm_num [roiAvgViews, pyOr, generalChannel])).2.1⟩

/-- Claim C2: the reasoning loop runs at most 5 rounds; with the stub
provider that requests a tool call in every response it runs exactly 5
rounds — but agent_orchestrator then raises AttributeError reading
messages[-1].content (the last message is a tool-role dict), instead of
returning iterations_used = 5. -/
theorem orchestrator_cap_five_rounds :
    (∀ (p : Provider) (t : ToolExec) (msgs : List Msg),
        (orchLoop p t MAX_ITERATIONS msgs).2 ≤ 5)
    ∧ (orchLoop stubProvider stubToolExec MAX_ITERATIONS
          (initial_messages ("ctx") ("brand"))).2 = 5
    ∧ agent_orchestrator stubProvider stubToolExec ("ctx") ("brand")
        = Except.error ("AttributeError") :=
  ⟨fun p t msgs => orchLoop_iterations_le p t 5 msgs, by decide, rfl⟩

/-- Claim C6: when the cap is reached the last history entry is a tool
message, not the assistant draft, and agent_orchestrator raises
AttributeError instead of returning the last assistant content as
response_draft. -/
theorem orchestrator_cap_draft_lost :
    (orchLoop stubProvider stubToolExec MAX_ITERATIONS
        (initial_messages ("c6") ("b6"))).1.getLast?
      = some (Msg.tool ("call_1") ("ok"))
    ∧ agent_orchestrator stubProvider stubToolExec ("c6") ("b6")
        = Except.error ("AttributeError") :=
  ⟨rfl, rfl⟩

/-- Claim C5: a failing tool call inside one round does not abort the run
or the round: the error-content tool message is appended in place, the
remaining requested calls of that round are still dispatched, and the next
reasoning round continues on the full history including the error
content. -/
theorem orchestrator_tool_failure_continues (p : Provider) (t : ToolExec)
    (fuel : Nat) (msgs : List Msg) (pre post : List ToolCall) (tc : ToolCall)
    (e : String) (hcalls : (p msgs).tool_calls = pre ++ tc :: post)
    (herr : t tc = Except.error e) :
    (roundHistory p t msgs
        = msgs ++ [Msg.assistant (p msgs).content (p msgs).tool_calls]
            ++ List.map (execMsg t) pre
            ++ Msg.tool tc.id ("Error: " ++ e) :: List.map (execMsg t) post)
    ∧ orchLoop p t (fuel + 1) msgs
        = ((orchLoop p t fuel (roundHistory p t msgs)).1,
           (orchLoop p t fuel (roundHistory p t msgs)).2 + 1) := by
  have hexec : execMsg t tc = Msg.tool tc.id ("Error: " ++ e) := by
    unfold execMsg
    rw [herr]
  have hne : (p msgs).tool_calls.isEmpty = false := by
    rw [hcalls]
    cases pre <;> rfl
  constructor
  · unfold roundHistory
    rw [hcalls]
    simp [hexec, List.append_assoc]
  · have hstep : orchLoop p t (fuel + 1) msgs
        = (if (p msgs).tool_calls.isEmpty then
            (msgs ++ [Msg.assistant (p msgs).content (p msgs).tool_calls], 1)
          else
            ((orchLoop p t fuel (roundHistory p t msgs)).1,
             (orchLoop p t fuel (roundHistory p t msgs)).2 + 1)) := rfl
    rw [hstep, if_neg (by simp [hne])]

/-- Witness for C5: a two-call round whose first call fails with boom. -/
theorem orchestrator_tool_failure_continues_witness :
    ((twoCallProvider (initial_messages ("w") ("w"))).tool_calls
        = [] ++ failingCall :: [laterCall]
      ∧ failingToolExec failingCall = Except.error ("boom"))
    ∧ ((roundHistory twoCallProvider failingToolExec (initial_messages ("w") ("w"))
        = initial_messages ("w") ("w")
            ++ [Msg.assistant (twoCallProvider (initial_messages ("w") ("w"))).content
                  (twoCallProvider (initial_messages ("w") ("w"))).tool_calls]
            ++ List.map (execMsg failingToolExec) []
            ++ Msg.tool failingCall.id ("Error: " ++ "boom")
                :: List.map (execMsg failingToolExec) [laterCall])
       ∧ orchLoop twoCallProvider failingToolExec (1 + 1) (initial_messages ("w") ("w"))
           = ((orchLoop twoCallProvider failingToolExec 1
                (roundHistory twoCallProvider failingToolExec (initial_messages ("w") ("w")))).1,
              (orchLoop twoCallProvider failingToolExec 1
                (roundHistory twoCallProvider failingToolExec (initial_messages ("w") ("w")))).2 + 1)) :=
  ⟨⟨rfl, rfl⟩,
   orchestrator_tool_failure_continues twoCallProvider failingToolExec 1
     (initial_messages ("w") ("w")) [] [laterCall] failingCall ("boom") rfl rfl⟩

end Dreamwell
